import Mathlib

/-!
Verification of the transport-fairmanagement frontend (login page and app
shell) against its natural-language specification.

The repository is a client-side React application. The parts relevant to
the claims are:
  - `App` in guardianhome.jsx: the darkMode state initializer reading
    localStorage, the persistence effect, `toggleTheme`, the route table
    and the `PrivateRoute` guard;
  - `handleSubmit` in login.jsx: the async login submit handler.

Stateful / effectful code is embedded as pure functions producing explicit
values (render results, effect traces). Browser APIs (localStorage,
JSON.parse, JSON.stringify) are modelled on the fragment of JSON the
application uses.
-/

/-- A JSON value, as far as the application needs: booleans, integers,
strings and null. `JSON.parse` of the darkMode storage key can yield any
of these. -/
inductive Json where
  | jnull : Json
  | jbool (b : Bool) : Json
  | jnum (n : Int) : Json
  | jstr (s : String) : Json
deriving DecidableEq

/-- Decimal digit run: `none` unless every character is a digit. -/
def decDigitsAux : List Char → Nat → Option Nat
  | [], acc => some acc
  | c :: cs, acc =>
    if '0' ≤ c ∧ c ≤ '9' then decDigitsAux cs (acc * 10 + (c.toNat - Char.toNat '0'))
    else none

/-- A nonempty run of decimal digits read as a Nat. -/
def decDigits : List Char → Option Nat
  | [] => none
  | cs => decDigitsAux cs 0

/-- An optionally negated nonempty digit run read as an Int, as JSON
admits for integer numerals. -/
def decInt (cs : List Char) : Option Int :=
  match cs with
  | '-' :: rest => (decDigits rest).map (fun n => -(n : Int))
  | _ => (decDigits cs).map (fun n => (n : Int))

/-- Model of the browser `JSON.parse` on the fragment of JSON relevant
here: the literals true / false / null, integer numerals, and quoted
strings. Any other input is a parse error (`none`), which in the browser
is a thrown SyntaxError. -/
def jsonParse (s : String) : Option Json :=
  if s = "true" then some (Json.jbool true)
  else if s = "false" then some (Json.jbool false)
  else if s = "null" then some Json.jnull
  else
    match decInt s.data with
    | some n => some (Json.jnum n)
    | none =>
      if 2 ≤ s.length ∧ s.front = '"' ∧ s.back = '"' then
        some (Json.jstr ((s.drop 1).dropRight 1))
      else none

/-- Model of the browser `JSON.stringify` on the same fragment. -/
def jsonStringify : Json → String
  | Json.jnull => "null"
  | Json.jbool true => "true"
  | Json.jbool false => "false"
  | Json.jnum n => toString n
  | Json.jstr s => "\"" ++ s ++ "\""

/-- The darkMode state initializer of `App` (guardianhome.jsx):
`const saved = localStorage.getItem("darkMode"); return saved ? JSON.parse(saved) : true;`.
`localStorage.getItem` returns null (`none`) when the key is absent; a JS
string is falsy exactly when it is empty, so absent and empty both fall to
the default `true`. Otherwise `JSON.parse` runs: result `none` models the
initializer throwing. -/
def appDarkModeInit (stored : Option String) : Option Json :=
  match stored with
  | none => some (Json.jbool true)
  | some saved => if saved = "" then some (Json.jbool true) else jsonParse saved

/-- The `toggleTheme` callback of `App`: `setDarkMode(!darkMode)`. -/
def toggleTheme (darkMode : Bool) : Bool := !darkMode

/-- The persistence effect of `App`:
`localStorage.setItem("darkMode", JSON.stringify(darkMode))` — the string
written to storage for the current darkMode state. -/
def persistDarkMode (darkMode : Json) : String := jsonStringify darkMode

/-- The page components the route table can mount. -/
inductive Page where
  | loginPage : Page
  | registerPage : Page
  | guardianHome : Page
  | userHome : Page
deriving DecidableEq

/-- What a route element renders: a page's children, or a `<Navigate>`
redirect to a path. -/
inductive RenderResult where
  | page (p : Page) : RenderResult
  | redirect (dest : String) : RenderResult
deriving DecidableEq

/-- The `PrivateRoute` component of `App`:
`authService.isAuthenticated() ? children : <Navigate to="/login" />`. -/
def PrivateRoute (isAuthenticated : Bool) (children : RenderResult) : RenderResult :=
  if isAuthenticated then children else RenderResult.redirect "/login"

/-- The `<Routes>` table of `App`: /login, /register, /guardian (guarded),
/user (guarded), / (redirect to /login); any other path matches no route. -/
def renderRoute (isAuthenticated : Bool) (path : String) : Option RenderResult :=
  if path = "/login" then some (RenderResult.page Page.loginPage)
  else if path = "/register" then some (RenderResult.page Page.registerPage)
  else if path = "/guardian" then
    some (PrivateRoute isAuthenticated (RenderResult.page Page.guardianHome))
  else if path = "/user" then
    some (PrivateRoute isAuthenticated (RenderResult.page Page.userHome))
  else if path = "/" then some (RenderResult.redirect "/login")
  else none

/-- The user object carried by a login response, as the handler uses it. -/
structure User where
  first_name : String
deriving DecidableEq

/-- A resolved login response. `user` is `none` when the response object
has no user field (`response.user` undefined). -/
structure LoginResponse where
  user : Option User
deriving DecidableEq

/-- Outcome of the awaited `authService.login(formData)` call: resolution
with a response, or rejection with `error.response?.data?.detail`
(`none` when any link of that optional chain is missing). -/
inductive LoginOutcome where
  | resolved (resp : LoginResponse) : LoginOutcome
  | rejected (detail : Option String) : LoginOutcome
deriving DecidableEq

/-- The observable effects of one run of the login submit handler, in
order. `awaitLogin` marks the completion of the awaited network request. -/
inductive Effect where
  | preventDefault : Effect
  | setLoading (b : Bool) : Effect
  | awaitLogin : Effect
  | toastSuccess (msg : String) : Effect
  | toastError (msg : String) : Effect
  | navigate (dest : String) : Effect
deriving DecidableEq

/-- The error-toast message: `error.response?.data?.detail || "Login failed"`.
JS `||` takes the right operand on any falsy left operand, so a missing
detail and an empty-string detail both give the fallback. -/
def errorMessage (detail : Option String) : String :=
  match detail with
  | some d => if d = "" then "Login failed" else d
  | none => "Login failed"

/-- The `handleSubmit` handler of login.jsx as an effect trace, given the
translation function `t`, the outcome of the awaited login call, and the
value `authService.isGuardian()` returns afterwards.

Source structure: preventDefault; setLoading(true); try { await login;
show the success toast built from t("auth.welcomeBack") and
response.user.first_name; navigate by role } catch { show the error toast
with the detail message or the fallback } finally { setLoading(false) }.
When `response.user` is undefined the success toast line throws a
TypeError, caught by the same catch; a TypeError has no `response`
property, so the optional chain yields undefined and the fallback
message shows. -/
def handleSubmit (t : String → String) (outcome : LoginOutcome) (isGuardian : Bool) :
    List Effect :=
  [Effect.preventDefault, Effect.setLoading true, Effect.awaitLogin] ++
  (match outcome with
   | LoginOutcome.resolved resp =>
     match resp.user with
     | some u =>
       [Effect.toastSuccess (t "auth.welcomeBack" ++ ", " ++ u.first_name ++ "!"),
        if isGuardian then Effect.navigate "/guardian" else Effect.navigate "/user"]
     | none => [Effect.toastError (errorMessage none)]
   | LoginOutcome.rejected detail => [Effect.toastError (errorMessage detail)]) ++
  [Effect.setLoading false]

/-- Is an effect a navigation? -/
def isNavigate : Effect → Bool
  | Effect.navigate _ => true
  | _ => false

/-- Is an effect an error notification? -/
def isToastError : Effect → Bool
  | Effect.toastError _ => true
  | _ => false

/-- Is an effect a success notification? -/
def isToastSuccess : Effect → Bool
  | Effect.toastSuccess _ => true
  | _ => false

/-- Is an effect the completion of the awaited login request? -/
def isAwaitLogin : Effect → Bool
  | Effect.awaitLogin => true
  | _ => false

/-- C1: for every render of a guarded route (/guardian or /user), the guard
is exactly the single `isAuthenticated` predicate check: authenticated
renders the children unchanged, unauthenticated renders a redirect to
/login — no error state. -/
theorem guarded_route_single_predicate :
    ∀ (auth : Bool) (children : RenderResult),
      PrivateRoute auth children =
        (if auth then children else RenderResult.redirect "/login") ∧
      renderRoute auth "/guardian" =
        some (if auth then RenderResult.page Page.guardianHome
              else RenderResult.redirect "/login") ∧
      renderRoute auth "/user" =
        some (if auth then RenderResult.page Page.userHome
              else RenderResult.redirect "/login") := by
  intro auth children
  refine ⟨rfl, ?_, ?_⟩ <;> cases auth <;> rfl

/-- C6: the root route / renders a redirect to /login for every session
state, authenticated or not. -/
theorem root_route_redirects_to_login :
    ∀ auth : Bool, renderRoute auth "/" = some (RenderResult.redirect "/login") := by
  intro auth
  cases auth <;> rfl

/-- C8: when no value is stored under the darkMode key, or the stored
string is empty, the App initializes darkMode to true: dark mode is the
default theme. -/
theorem darkMode_default_is_true :
    appDarkModeInit none = some (Json.jbool true) ∧
    appDarkModeInit (some "") = some (Json.jbool true) :=
  ⟨rfl, rfl⟩

/-- C4: persist-then-restore is a round trip. For every boolean b, after
toggleTheme turns b into not b, the string JSON-serialized to storage is
the serialization of not b, and the App initializer applied to that stored
string yields not b again. -/
theorem theme_toggle_persist_roundtrip :
    ∀ b : Bool,
      toggleTheme b = !b ∧
      persistDarkMode (Json.jbool (toggleTheme b)) = jsonStringify (Json.jbool (!b)) ∧
      appDarkModeInit (some (persistDarkMode (Json.jbool (toggleTheme b)))) =
        some (Json.jbool (!b)) := by
  intro b
  cases b <;> exact ⟨rfl, rfl, rfl⟩

/-- C5 counterexample: the stored string "7" is accepted by the
initializer but yields the JSON number 7, not a boolean, and the non-JSON
stored string "oops" makes the initializer throw (modelled as `none`), so
the initializer does not yield a boolean for every storable string. -/
theorem darkMode_init_nonboolean_counterexample :
    appDarkModeInit (some "7") = some (Json.jnum 7) ∧
    (∀ b : Bool, Json.jnum 7 ≠ Json.jbool b) ∧
    appDarkModeInit (some "oops") = none := by
  refine ⟨by decide, ?_, by decide⟩
  intro b
  cases b <;> decide

/-- C5 amended: for every stored value that is absent, empty, or the JSON
serialization of a boolean — i.e. everything the application itself ever
writes — the App state initializer yields a boolean; and every write
performed while the darkMode state is a boolean stores a JSON boolean
(its parse is that boolean). -/
theorem darkMode_init_boolean_of_wellformed :
    ∀ s : Option String,
      (s = none ∨ s = some "" ∨ ∃ b : Bool, s = some (jsonStringify (Json.jbool b))) →
      (∃ b : Bool, appDarkModeInit s = some (Json.jbool b)) ∧
      ∀ b : Bool, jsonParse (persistDarkMode (Json.jbool b)) = some (Json.jbool b) := by
  intro s h
  constructor
  · rcases h with h | h | ⟨b, h⟩
    · exact ⟨true, by subst h; rfl⟩
    · exact ⟨true, by subst h; rfl⟩
    · subst h
      cases b
      · exact ⟨false, rfl⟩
      · exact ⟨true, rfl⟩
  · intro b
    cases b <;> rfl

/-- C5 witness: the amended theorem at the concrete stored string "true". -/
theorem darkMode_init_boolean_of_wellformed_witness :
    (∃ b : Bool, appDarkModeInit (some "true") = some (Json.jbool b)) ∧
    ∀ b : Bool, jsonParse (persistDarkMode (Json.jbool b)) = some (Json.jbool b) :=
  darkMode_init_boolean_of_wellformed (some "true") (Or.inr (Or.inr ⟨true, rfl⟩))

/-- C2 counterexample: a login call that resolves with a response carrying
no user object produces no navigation at all (and no success toast, only
the fallback error toast), refuting navigation for every resolving
submission. -/
theorem login_resolved_no_user_counterexample :
    (handleSubmit (fun s => s) (LoginOutcome.resolved ⟨none⟩) true).filter isNavigate = [] ∧
    (handleSubmit (fun s => s) (LoginOutcome.resolved ⟨none⟩) true).filter isToastSuccess = [] ∧
    Effect.toastError "Login failed" ∈
      handleSubmit (fun s => s) (LoginOutcome.resolved ⟨none⟩) true := by
  decide

/-- C2 amended: for every login submission whose login call resolves with
a response carrying a user object, the handler shows the success toast and
then navigates to the role-based route — /guardian when isGuardian is
true, /user otherwise. -/
theorem login_success_navigates_by_role :
    ∀ (t : String → String) (u : User) (g : Bool),
      handleSubmit t (LoginOutcome.resolved ⟨some u⟩) g =
        [Effect.preventDefault, Effect.setLoading true, Effect.awaitLogin,
         Effect.toastSuccess (t "auth.welcomeBack" ++ ", " ++ u.first_name ++ "!"),
         Effect.navigate (if g then "/guardian" else "/user"),
         Effect.setLoading false] := by
  intro t u g
  cases g <;> rfl

/-- C3 counterexample: with a present but empty detail string the handler
shows the fallback message, not the (present) detail message, because the
JS fallback switches on falsiness rather than presence. -/
theorem login_rejected_empty_detail_counterexample :
    Effect.toastError "" ∉
      handleSubmit (fun s => s) (LoginOutcome.rejected (some "")) true ∧
    Effect.toastError "Login failed" ∈
      handleSubmit (fun s => s) (LoginOutcome.rejected (some "")) true := by
  decide

/-- C3 amended: for every rejected login submission the handler shows
exactly one error notification — the detail message when present and
non-empty, otherwise the fallback — performs no navigation, and the
request completes exactly once per submission. -/
theorem login_rejected_single_error_no_navigation :
    ∀ (t : String → String) (detail : Option String) (g : Bool),
      (handleSubmit t (LoginOutcome.rejected detail) g).filter isToastError =
        [Effect.toastError (errorMessage detail)] ∧
      (handleSubmit t (LoginOutcome.rejected detail) g).filter isNavigate = [] ∧
      (handleSubmit t (LoginOutcome.rejected detail) g).filter isAwaitLogin =
        [Effect.awaitLogin] := by
  intro t detail g
  exact ⟨rfl, rfl, rfl⟩

/-- C7 counterexample: an effect does precede the completion of the
request — the handler sets the loading flag to true (disabling the submit
button) before the awaited login call completes. -/
theorem login_effect_precedes_request_counterexample :
    (handleSubmit (fun s => s) (LoginOutcome.rejected none) true)[1]? =
      some (Effect.setLoading true) ∧
    (handleSubmit (fun s => s) (LoginOutcome.rejected none) true)[2]? =
      some Effect.awaitLogin := by
  decide

/-- C7 amended: within a single submission the request completes before
any navigation or notification effect — every trace is the fixed prefix
(preventDefault, setLoading true, request completion) followed by effects
containing no further completion — and navigation and the error
notification never both occur. -/
theorem login_effects_ordered_after_request :
    ∀ (t : String → String) (outcome : LoginOutcome) (g : Bool),
      ∃ post,
        handleSubmit t outcome g =
          [Effect.preventDefault, Effect.setLoading true, Effect.awaitLogin] ++ post ∧
        post.filter isAwaitLogin = [] ∧
        (post.filter isNavigate = [] ∨ post.filter isToastError = []) := by
  intro t outcome g
  cases outcome with
  | resolved resp =>
    obtain ⟨user⟩ := resp
    cases user with
    | some u =>
      cases g
      · exact ⟨_, rfl, rfl, Or.inr rfl⟩
      · exact ⟨_, rfl, rfl, Or.inr rfl⟩
    | none => exact ⟨_, rfl, rfl, Or.inl rfl⟩
  | rejected detail => exact ⟨_, rfl, rfl, Or.inl rfl⟩

/-- C9: after every login submission — resolution with or without a user
object, or rejection — the last effect resets the loading flag to false,
so the submit button is re-enabled once the attempt finishes. -/
theorem login_loading_always_reset :
    ∀ (t : String → String) (outcome : LoginOutcome) (g : Bool),
      (handleSubmit t outcome g).getLast? = some (Effect.setLoading false) := by
  intro t outcome g
  cases outcome with
  | resolved resp =>
    obtain ⟨user⟩ := resp
    cases user with
    | some u => rfl
    | none => rfl
  | rejected detail => rfl

/-- C10: navigation happens only for responses carrying a user object;
when the login call resolves but the response has no user field, the
unguarded field access throws inside the try block, so the handler shows
the fallback error notification and does not navigate. -/
theorem login_navigation_requires_user :
    ∀ (t : String → String) (outcome : LoginOutcome) (g : Bool),
      (∀ dest, Effect.navigate dest ∈ handleSubmit t outcome g →
        ∃ resp u, outcome = LoginOutcome.resolved resp ∧ resp.user = some u) ∧
      (∀ resp, outcome = LoginOutcome.resolved resp → resp.user = none →
        handleSubmit t outcome g =
          [Effect.preventDefault, Effect.setLoading true, Effect.awaitLogin,
           Effect.toastError "Login failed", Effect.setLoading false]) := by
  intro t outcome g
  constructor
  · intro dest hmem
    cases outcome with
    | resolved resp =>
      obtain ⟨user⟩ := resp
      cases user with
      | some u => exact ⟨⟨some u⟩, u, rfl, rfl⟩
      | none => simp [handleSubmit, errorMessage] at hmem
    | rejected detail => simp [handleSubmit, errorMessage] at hmem
  · intro resp heq hnone
    subst heq
    obtain ⟨user⟩ := resp
    simp only at hnone
    subst hnone
    rfl

/-- C10 witness: both parts of the theorem at concrete inputs — a response
carrying the user Ada does navigate, and a resolved response with no user
field yields exactly the error trace. -/
theorem login_navigation_requires_user_witness :
    (∃ resp u, LoginOutcome.resolved ⟨some ⟨"Ada"⟩⟩ = LoginOutcome.resolved resp ∧
       resp.user = some u) ∧
    handleSubmit (fun s => s) (LoginOutcome.resolved ⟨none⟩) true =
      [Effect.preventDefault, Effect.setLoading true, Effect.awaitLogin,
       Effect.toastError "Login failed", Effect.setLoading false] :=
  ⟨(login_navigation_requires_user (fun s => s) (LoginOutcome.resolved ⟨some ⟨"Ada"⟩⟩) true).1
      "/guardian" (by decide),
   (login_navigation_requires_user (fun s => s) (LoginOutcome.resolved ⟨none⟩) true).2
      ⟨none⟩ rfl rfl⟩
